import Mathlib

/-!
Verification development for the caldav2pal repository.

The repository converts CalDAV calendars and CardDAV contacts into pal
plain-text event files.  This file gives a shallow embedding of the
conversion logic and the update-decision logic:

* `src/util.py`              — `Util.does_file_need_update`
* `src/calendars2events.py`  — `_is_all_day`, `_get_start_datetime`,
                               `_get_end_datetime`, `_is_multiple_days`,
                               `_convert_event`, `_convert_calendar`,
                               `convert_calendars_to_events`
* `src/contacts2birthdays.py`— `_convert_contact`, `_convert_contacts`,
                               `convert_contacts_to_birthdays`

Instants are modelled as `Int` seconds on the machine's local timeline
(all Python datetimes in the code are converted to the local timezone
with `astimezone()` before use).  A Python `datetime.date` value is a
calendar day, modelled as the `Int` number of days since 1970-01-01.
File-system state, HTTP responses and the external parsing libraries
(`icalendar`, `recurring_ical_events`, `vobject`) are modelled as
explicit inputs; exceptions are modelled as explicit outcome values
which the embedded callers propagate exactly as Python does.
-/

namespace Caldav2pal

/-! ## util.py: the update decision -/

/--
Embeds `Util.does_file_need_update` (src/util.py lines 205-237).

* `fileExists`   — `os.path.exists(file)`
* `mtime`        — `datetime.fromtimestamp(os.path.getmtime(file)).astimezone()`
* `lastModified` — `parsedate(response.headers["Last-Modified"]).astimezone()`,
                   `none` when the response carries no `Last-Modified` header
* `now`          — `datetime.now().astimezone()`
* `max_age`      — the optional `timedelta`, in seconds
-/
def does_file_need_update (fileExists : Bool) (mtime : Int)
    (lastModified : Option Int) (now : Int) (max_age : Option Int) : Bool :=
  -- File doesn't exist or no Last-Modified field in the response -> Needs updating
  if !fileExists || lastModified.isNone then
    true
  else
    match lastModified with
    | none => true
    | some url_datetime =>
      -- Last-Modified is newer than the file's modification time -> Needs updating
      if url_datetime > mtime then
        true
      -- File is older than its maximum age -> Needs updating
      else if (match max_age with
               | none => false
               | some ma => decide (now > mtime + ma)) then
        true
      -- File is a-okay!
      else
        false

/-- Truth-table characterisation of `does_file_need_update`, shared by the
theorems about it. -/
lemma does_file_need_update_iff (fileExists : Bool) (mtime : Int)
    (lastModified : Option Int) (now : Int) (max_age : Option Int) :
    does_file_need_update fileExists mtime lastModified now max_age = true ↔
      (fileExists = false ∨ lastModified = none ∨
       (∃ u, lastModified = some u ∧ mtime < u) ∨
       (∃ ma, max_age = some ma ∧ mtime + ma < now)) := by
  cases lastModified with
  | none => simp [does_file_need_update]
  | some u =>
    cases fileExists with
    | false => simp [does_file_need_update]
    | true =>
      cases max_age with
      | none =>
        simp only [does_file_need_update, Bool.not_true, Option.isNone_some,
          Bool.or_self, Bool.false_eq_true, if_false]
        constructor
        · intro h
          split at h
          · next hgt => exact Or.inr (Or.inr (Or.inl ⟨u, rfl, hgt⟩))
          · simp at h
        · rintro (h | h | ⟨v, hv, hlt⟩ | ⟨ma, hma, _⟩)
          · exact absurd h (by simp)
          · exact absurd h (by simp)
          · cases hv
            simp [hlt]
          · cases hma
      | some ma =>
        simp only [does_file_need_update, Bool.not_true, Option.isNone_some,
          Bool.or_self, Bool.false_eq_true, if_false]
        constructor
        · intro h
          split at h
          · next hgt => exact Or.inr (Or.inr (Or.inl ⟨u, rfl, hgt⟩))
          · split at h
            · next hage =>
              simp only [decide_eq_true_eq] at hage
              exact Or.inr (Or.inr (Or.inr ⟨ma, rfl, hage⟩))
            · simp at h
        · rintro (h | h | ⟨v, hv, hlt⟩ | ⟨ma', hma, hage⟩)
          · exact absurd h (by simp)
          · exact absurd h (by simp)
          · cases hv
            simp [hlt]
          · cases hma
            by_cases hgt : u > mtime
            · simp [hgt]
            · simp [hgt, hage]

/-- C1: `does_file_need_update` returns `true` exactly when the output file
is absent, or the response has no `Last-Modified` header, or the remote
`Last-Modified` instant is strictly later than the file's modification
instant, or a `max_age` is given and the current time is strictly later
than the file's modification time plus `max_age`; otherwise it returns
`false`.  The rule cascade of the code, evaluated first match first, has
exactly this truth table. -/
theorem c1_does_file_need_update_rules (fileExists : Bool) (mtime : Int)
    (lastModified : Option Int) (now : Int) (max_age : Option Int) :
    does_file_need_update fileExists mtime lastModified now max_age = true ↔
      (fileExists = false ∨ lastModified = none ∨
       (∃ u, lastModified = some u ∧ mtime < u) ∨
       (∃ ma, max_age = some ma ∧ mtime + ma < now)) :=
  does_file_need_update_iff fileExists mtime lastModified now max_age

/-- Witness for C1 at a concrete input: a missing file needs updating. -/
theorem c1_witness : does_file_need_update false 0 (some 0) 7 none = true :=
  (c1_does_file_need_update_rules false 0 (some 0) 7 none).mpr (Or.inl rfl)

/-- C10: `does_file_need_update` is antitone in `max_age`: shrinking the
maximum age can only turn `false` into `true`, never the other way; and
`max_age = none` behaves as an infinite maximum age, so a `true` result
with `none` is a `true` result for every finite maximum age. -/
theorem c10_antitone_max_age (fileExists : Bool) (mtime : Int)
    (lastModified : Option Int) (now : Int) (m m' : Int) :
    (m ≤ m' →
      does_file_need_update fileExists mtime lastModified now (some m') = true →
      does_file_need_update fileExists mtime lastModified now (some m) = true) ∧
    (does_file_need_update fileExists mtime lastModified now none = true →
      does_file_need_update fileExists mtime lastModified now (some m) = true) := by
  constructor
  · intro hmm h
    rw [does_file_need_update_iff] at h ⊢
    rcases h with h | h | h | ⟨ma, hma, hage⟩
    · exact Or.inl h
    · exact Or.inr (Or.inl h)
    · exact Or.inr (Or.inr (Or.inl h))
    · cases hma
      exact Or.inr (Or.inr (Or.inr ⟨m, rfl, by omega⟩))
  · intro h
    rw [does_file_need_update_iff] at h ⊢
    rcases h with h | h | h | ⟨ma, hma, _⟩
    · exact Or.inl h
    · exact Or.inr (Or.inl h)
    · exact Or.inr (Or.inr (Or.inl h))
    · cases hma

/-- Witness for C10 at a concrete input: an over-age file that needs
updating with a 10-second maximum age still needs updating with a
5-second maximum age. -/
theorem c10_witness :
    does_file_need_update true 0 (some 0) 100 (some 5) = true :=
  (c10_antitone_max_age true 0 (some 0) 100 5 10).1 (by norm_num) (by decide)

/-! ## Local-time model

An instant is an `Int` of seconds since local midnight of 1970-01-01; a
calendar day is an `Int` of days since 1970-01-01.  `civilFromDays` and
`daysFromCivil` convert between day numbers and proleptic Gregorian
dates exactly as Python's `datetime.date` does. -/

/-- Gregorian date of a day number (days since 1970-01-01). -/
def civilFromDays (z0 : Int) : Int × Int × Int :=
  let z := z0 + 719468
  let era := Int.ediv z 146097
  let doe := z - era * 146097
  let yoe := Int.ediv (doe - Int.ediv doe 1460 + Int.ediv doe 36524 - Int.ediv doe 146096) 365
  let y := yoe + era * 400
  let doy := doe - (365 * yoe + Int.ediv yoe 4 - Int.ediv yoe 100)
  let mp := Int.ediv (5 * doy + 2) 153
  let d := doy - Int.ediv (153 * mp + 2) 5 + 1
  let m := mp + (if mp < 10 then 3 else -9)
  (if m ≤ 2 then y + 1 else y, m, d)

/-- Day number (days since 1970-01-01) of a Gregorian date. -/
def daysFromCivil (y m d : Int) : Int :=
  let y' := if m ≤ 2 then y - 1 else y
  let era := Int.ediv y' 400
  let yoe := y' - era * 400
  let mp := Int.emod (m + 9) 12
  let doy := Int.ediv (153 * mp + 2) 5 + d - 1
  let doe := yoe * 365 + Int.ediv yoe 4 - Int.ediv yoe 100 + doy
  era * 146097 + doe - 719468

/-- Two decimal digit characters, zero padded: Python `%02d` formatting
for arguments below 100 (months, days, hours, minutes, seconds). -/
def twoDigits (n : Nat) : List Char :=
  [Nat.digitChar (n / 10 % 10), Nat.digitChar (n % 10)]

/-- Four decimal digit characters, zero padded: the year part of
`str(datetime)` (Python pads the year to four digits). -/
def fourDigits (n : Nat) : List Char :=
  twoDigits (n / 100) ++ twoDigits n

/-- Local calendar day of an instant: Python `datetime.date()`. -/
def localDay (t : Int) : Int := Int.ediv t 86400

/-- Seconds elapsed since local midnight. -/
def sodOf (t : Int) : Nat := (Int.emod t 86400).toNat

/-- Hour of the day (0-23) of an instant. -/
def hourOf (t : Int) : Nat := sodOf t / 3600

/-- Minute of the hour (0-59) of an instant. -/
def minuteOf (t : Int) : Nat := sodOf t % 3600 / 60

/-- Second of the minute (0-59) of an instant. -/
def secondOf (t : Int) : Nat := sodOf t % 60

/-- The character sequence `str(datetime).replace('-', '')` of a local
instant: `"YYYYMMDD HH:MM:SS"`.  `str` of an aware Python datetime also
appends a UTC-offset suffix, which the code's slices `[:8]` and `[9:14]`
never reach, so it is not modelled. -/
def dtChars (t : Int) : List Char :=
  let c := civilFromDays (localDay t)
  fourDigits c.1.toNat ++ twoDigits c.2.1.toNat ++ twoDigits c.2.2.toNat ++
    (' ' :: (twoDigits (hourOf t) ++
      (':' :: (twoDigits (minuteOf t) ++ (':' :: twoDigits (secondOf t))))))

/-- Python character slicing `s[a:b]` on a character list. -/
def pySlice (a b : Nat) (cs : List Char) : List Char :=
  (cs.drop a).take (b - a)

/-- The slice `str(dt).replace('-', '')[:8]`: the `YYYYMMDD` date slice used by
`_convert_event` (src/calendars2events.py lines 102-103). -/
def date_slice (t : Int) : String := String.mk (pySlice 0 8 (dtChars t))

/-- The slice `str(dt).replace('-', '')[9:14]`: the time slice used by
`_convert_event` (src/calendars2events.py lines 105-106). -/
def time_slice (t : Int) : String := String.mk (pySlice 9 14 (dtChars t))

/-- Recognises a five-character zero-padded clock string `HH:MM`: two
decimal digits, a colon, two decimal digits. -/
def isClockString (s : String) : Bool :=
  match s.toList with
  | [a, b, c, d, e] => a.isDigit && b.isDigit && (c == ':') && d.isDigit && e.isDigit
  | _ => false

/-! ## calendars2events.py: the event converter -/

/-- The structural kind of an iCalendar timestamp: `icalendar` hands the
code either a `datetime.date` (`dateOnly`, a day number) or a
`datetime.datetime` (`dateTime`, a local instant). -/
inductive ICalStamp where
  | dateOnly (day : Int)
  | dateTime (t : Int)
deriving DecidableEq

/-- Embeds `type(stamp.dt) is date`: true exactly for the `dateOnly` variant. -/
def ICalStamp.isDateOnly : ICalStamp → Bool
  | .dateOnly _ => true
  | .dateTime _ => false

/-- One expanded event occurrence as `_convert_event` sees it: its
`DTSTART` and `DTEND` stamps and its `SUMMARY`.  `none` models the
`SUMMARY` key being absent from the component dictionary; for such an
event the subscript `event["SUMMARY"]` raises a `KeyError` (icalendar
components are `CaselessDict`s), it does not return `None`. -/
structure Event where
  dtstart : ICalStamp
  dtend : ICalStamp
  summary : Option String
deriving DecidableEq

/-- Embeds `_is_all_day` (src/calendars2events.py lines 30-41): both the
start and the end timestamp are stored as `datetime.date` objects. -/
def _is_all_day (e : Event) : Bool :=
  e.dtstart.isDateOnly && e.dtend.isDateOnly

/-- Embeds `_get_start_datetime` (src/calendars2events.py lines 49-59):
a date expands to local midnight, a datetime converts to local time. -/
def _get_start_datetime (e : Event) : Int :=
  match e.dtstart with
  | .dateOnly d => d * 86400
  | .dateTime t => t

/-- The end value `_get_end_datetime` computes before its clamp
(src/calendars2events.py lines 72-76): an exclusive end date expands to
local midnight minus one second, a datetime converts to local time. -/
def raw_end_datetime (e : Event) : Int :=
  match e.dtend with
  | .dateOnly d => d * 86400 - 1
  | .dateTime t => t

/-- Embeds `_get_end_datetime` (src/calendars2events.py lines 62-82),
including the final clamp: the end is never before the start. -/
def _get_end_datetime (e : Event) : Int :=
  let end_datetime := raw_end_datetime e
  -- Make sure the end is never before the start
  let start_datetime := _get_start_datetime e
  if start_datetime > end_datetime then start_datetime else end_datetime

/-- Embeds `_is_multiple_days` (src/calendars2events.py lines 43-46). -/
def _is_multiple_days (e : Event) : Bool :=
  localDay (_get_start_datetime e) != localDay (_get_end_datetime e)

/-- A character CPython's `str.isspace` counts as whitespace: the code
points with the Unicode White_Space property or bidirectional class
WS, B or S (U+0009-U+000D, U+001C-U+001F, space, NEL, NBSP, Ogham space
mark, the U+2000-U+200A spaces, line/paragraph separator, narrow
no-break space, medium mathematical space, ideographic space). -/
def pyIsSpaceChar (c : Char) : Bool :=
  (0x09 ≤ c.toNat && c.toNat ≤ 0x0d) || (0x1c ≤ c.toNat && c.toNat ≤ 0x1f) ||
  c.toNat == 0x20 || c.toNat == 0x85 || c.toNat == 0xa0 || c.toNat == 0x1680 ||
  (0x2000 ≤ c.toNat && c.toNat ≤ 0x200a) || c.toNat == 0x2028 || c.toNat == 0x2029 ||
  c.toNat == 0x202f || c.toNat == 0x205f || c.toNat == 0x3000

/-- Python `str.isspace`: non-empty and every character whitespace. -/
def pyIsspace (s : String) : Bool :=
  !s.isEmpty && s.toList.all pyIsSpaceChar

/-- The title computation of `_convert_event` (src/calendars2events.py
lines 92-95) for a present summary value: a whitespace-only or empty
summary becomes the placeholder `"[Event without title]"`.  The code
also tests `name is None`, but the subscript on line 93 raises
`KeyError` before that test can see an absent summary, so for parsed
events the `None` branch is unreachable and is not modelled. -/
def event_title (name : String) : String :=
  if pyIsspace name || name.length == 0 then "[Event without title]" else name

/-- The line `_convert_event` writes (src/calendars2events.py lines
97-121), with the title passed explicitly. -/
def convert_event_titled (e : Event) (name : String) : String :=
  let start_datetime := _get_start_datetime e
  let end_datetime := _get_end_datetime e
  let start_date := date_slice start_datetime
  let end_date := date_slice end_datetime
  let start_time := time_slice start_datetime
  let end_time := time_slice end_datetime
  if _is_all_day e then
    if _is_multiple_days e then
      -- An all-day event that goes over multiple days
      "DAILY:" ++ start_date ++ ":" ++ end_date ++ " " ++ name ++ "\n"
    else
      -- An all-day event that occurs for a single day
      start_date ++ " " ++ name ++ "\n"
  else
    if _is_multiple_days e then
      -- An event with a start time that goes beyond the end of the day
      start_date ++ " [" ++ start_time ++ "] " ++ name ++ "\n"
    else
      -- An event which starts and ends in the same day
      start_date ++ " [" ++ start_time ++ "-" ++ end_time ++ "] " ++ name ++ "\n"

/-- Embeds `_convert_event` (src/calendars2events.py lines 85-121): the
pal line written for one event occurrence, or `none` for the `KeyError`
that `event["SUMMARY"]` (line 93) raises when the event has no summary
field, which aborts the source's conversion. -/
def _convert_event (e : Event) : Option String :=
  match e.summary with
  | none => none
  | some name => some (convert_event_titled e (event_title name))

/-! ## contacts2birthdays.py: the birthday converter -/

/-- A non-empty all-digit character sequence read as a number; `none`
models the `ValueError` Python's `strptime` raises otherwise. -/
def parseDigits (cs : List Char) : Option Nat :=
  if cs ≠ [] ∧ cs.all Char.isDigit then
    some (cs.foldl (fun n c => n * 10 + (c.toNat - 48)) 0)
  else
    none

/-- Split a character sequence at each `'-'`. -/
def splitDash : List Char → List Char → List (List Char)
  | [], acc => [acc.reverse]
  | c :: rest, acc =>
    if c = '-' then acc.reverse :: splitDash rest [] else splitDash rest (c :: acc)

/-- Gregorian leap-year test. -/
def isLeapYear (y : Nat) : Bool :=
  (y % 4 == 0 && y % 100 != 0) || (y % 400 == 0)

/-- Number of days of a month, as Python's `datetime` validates it. -/
def daysInMonth (y m : Nat) : Nat :=
  if m = 2 then (if isLeapYear y then 29 else 28)
  else if m = 4 ∨ m = 6 ∨ m = 9 ∨ m = 11 then 30
  else 31

/-- Embeds `datetime.strptime(bday.value, "%Y-%m-%d")` as used by
`_convert_contact` (src/contacts2birthdays.py line 42): the value must
be three dash-separated digit groups forming a valid calendar date;
`none` models the raised `ValueError` (the spec's ParseError). -/
def parse_bday (s : String) : Option (Nat × Nat × Nat) :=
  match splitDash s.toList [] with
  | [ys, ms, ds] =>
    match parseDigits ys, parseDigits ms, parseDigits ds with
    | some y, some m, some d =>
      if 1 ≤ m ∧ m ≤ 12 ∧ 1 ≤ d ∧ d ≤ daysInMonth y m then some (y, m, d) else none
    | _, _, _ => none
  | _ => none

/-- One `BDAY` field of a vcard contact: its date value string and the
year list of its `X-APPLE-OMIT-YEAR` parameter. -/
structure BdayField where
  value : String
  omitYears : List String
deriving DecidableEq

/-- One vcard contact: formatted name and its `BDAY` fields. -/
structure ContactRec where
  fn : String
  bdays : List BdayField
deriving DecidableEq

/-- The line the `_convert_contact` loop body writes for one `BDAY`
field (src/contacts2birthdays.py lines 40-53); `none` models the
`ValueError` raised for a malformed date value. -/
def convert_contact_bday (fn : String) (value : String) (omitYears : List String) :
    Option String :=
  match parse_bday value with
  | none => none
  | some (y, m, d) =>
    -- If the year does not appear in the "fake" years list to omit, use it
    let age_str :=
      if toString y ∈ omitYears then ""
      else ", " ++ toString y ++ " (!" ++ toString y ++ "!)"
    some ("0000" ++ String.mk (twoDigits m) ++ String.mk (twoDigits d) ++ " " ++
      fn ++ age_str ++ "\n")

/-- The writes of `_convert_contact` for one contact, in field order:
the lines written before a malformed date raises, and whether the whole
contact converted (`true`) or raised (`false`). -/
def writeBdays (fn : String) : List BdayField → List String × Bool
  | [] => ([], true)
  | b :: rest =>
    match convert_contact_bday fn b.value b.omitYears with
    | none => ([], false)
    | some line =>
      let r := writeBdays fn rest
      (line :: r.1, r.2)

/-- The writes of the contact loop of `_convert_contacts`, in document
order, stopping at the first contact whose conversion raises. -/
def writeContacts : List ContactRec → List String × Bool
  | [] => ([], true)
  | c :: rest =>
    let r := writeBdays c.fn c.bdays
    if r.2 then
      let r' := writeContacts rest
      (r.1 ++ r'.1, r'.2)
    else
      (r.1, false)

/-! ## Per-source processing and the section loops -/

/-- One config-file section: the four keys `_convert_contacts` and
`_convert_calendar` read with `.get(key, None)`. -/
structure SourceSection where
  url : Option String
  pal : Option String
  name : Option String
  shorthand : Option String
deriving DecidableEq

/-- The observable state of one output pal file: whether it exists, its
modification instant, and its current content as the list of chunks the
last writer wrote. -/
structure FileEnv where
  fileExists : Bool
  mtime : Int
  content : List String
deriving DecidableEq

/-- A successful fetch of a contacts source: the optional parsed
`Last-Modified` instant and the contact records `vobject` yields from
the response text. -/
structure ContactsFetch where
  lastModified : Option Int
  contacts : List ContactRec
deriving DecidableEq

/-- One configured contacts source together with its environment:
config section, fetch result (`none` models a failed `Util.get_url`)
and the state of its output file. -/
structure ContactsSource where
  sec : SourceSection
  fetch : Option ContactsFetch
  env : FileEnv
deriving DecidableEq

/-- How processing one source ended. `raised` models an uncaught Python
exception leaving the per-source function. -/
inductive ConvOutcome where
  | skippedMalformed
  | skippedFetch
  | skippedFresh
  | ok
  | raised
deriving DecidableEq

/-- Embeds `_convert_contacts` (src/contacts2birthdays.py lines 58-106):
the outcome and the resulting content of the output file.  Note that the
file is opened with mode `"w"` (truncating) and the header line is
written before any contact is converted, so on the `raised` outcome the
file holds the header and the lines written before the failing field. -/
def _convert_contacts (src : ContactsSource) (now : Int) : ConvOutcome × List String :=
  match src.sec.url, src.sec.pal, src.sec.name, src.sec.shorthand with
  | some _u, some _p, some name, some shorthand =>
    match src.fetch with
    | none => (.skippedFetch, src.env.content)
    | some fetch =>
      -- If the pal event file is older than the URL, it needs updating
      if !does_file_need_update src.env.fileExists src.env.mtime fetch.lastModified now none then
        (.skippedFresh, src.env.content)
      else
        let header := shorthand ++ " " ++ name ++ "\n"
        let r := writeContacts fetch.contacts
        if r.2 then (.ok, header :: r.1) else (.raised, header :: r.1)
  | _, _, _, _ => (.skippedMalformed, src.env.content)

/-- Embeds the section loop of `convert_contacts_to_birthdays`
(src/contacts2birthdays.py lines 122-124): sources are processed in
order; the loop has no exception handler, so a `raised` outcome ends the
run with the remaining sources unprocessed (the `Bool` is `false` when
the run was aborted). -/
def convert_contacts_to_birthdays :
    List ContactsSource → Int → List (ConvOutcome × List String) × Bool
  | [], _ => ([], true)
  | src :: rest, now =>
    let r := _convert_contacts src now
    if r.1 = ConvOutcome.raised then
      ([r], false)
    else
      let rs := convert_contacts_to_birthdays rest now
      (r :: rs.1, rs.2)

/-- The `timedelta(days=180)` of src/calendars2events.py line 157, in seconds. -/
def maxAge180 : Int := 180 * 86400

/-- A successful fetch of a calendar source: the optional parsed
`Last-Modified` instant and the event occurrences that
`icalendar.Calendar.from_ical` plus `recurring_ical_events` yield from
the response text (`none` models `from_ical` raising on a malformed
document). -/
structure CalendarFetch where
  lastModified : Option Int
  parsedEvents : Option (List Event)
deriving DecidableEq

/-- One configured calendar source together with its environment. -/
structure CalendarSource where
  sec : SourceSection
  fetch : Option CalendarFetch
  env : FileEnv
deriving DecidableEq

/-- The writes of the event loop of `_convert_calendar`
(src/calendars2events.py lines 176-178), in expansion order: the lines
written before an event without a summary raises `KeyError`, and
whether the loop completed (`true`) or raised (`false`). -/
def writeEvents : List Event → List String × Bool
  | [] => ([], true)
  | e :: rest =>
    match _convert_event e with
    | none => ([], false)
    | some line =>
      let r := writeEvents rest
      (line :: r.1, r.2)

/-- Embeds `_convert_calendar` (src/calendars2events.py lines 124-180):
the outcome and the resulting content of the output file.  The file is
truncated and the header line written before `from_ical` parses the
document, so on the `raised` outcome the file holds only the header. -/
def _convert_calendar (src : CalendarSource) (now : Int) : ConvOutcome × List String :=
  match src.sec.url, src.sec.pal, src.sec.name, src.sec.shorthand with
  | some _u, some _p, some name, some shorthand =>
    match src.fetch with
    | none => (.skippedFetch, src.env.content)
    | some fetch =>
      -- A calendar needs updating if the URL is newer or the file is older than 180 days
      if !does_file_need_update src.env.fileExists src.env.mtime fetch.lastModified now
          (some maxAge180) then
        (.skippedFresh, src.env.content)
      else
        let header := shorthand ++ " " ++ name ++ "\n"
        match fetch.parsedEvents with
        | none => (.raised, [header])
        | some events =>
          let r := writeEvents events
          if r.2 then (.ok, header :: r.1) else (.raised, header :: r.1)
  | _, _, _, _ => (.skippedMalformed, src.env.content)

/-- Embeds the section loop of `convert_calendars_to_events`
(src/calendars2events.py lines 194-196), analogous to the contacts
loop. -/
def convert_calendars_to_events :
    List CalendarSource → Int → List (ConvOutcome × List String) × Bool
  | [], _ => ([], true)
  | src :: rest, now =>
    let r := _convert_calendar src now
    if r.1 = ConvOutcome.raised then
      ([r], false)
    else
      let rs := convert_calendars_to_events rest now
      (r :: rs.1, rs.2)

/-! ## Concrete fixtures used by counterexamples and witnesses -/

/-- The all-day event of the spec's round-trip example:
`DTSTART=2024-03-01`, `DTEND=2024-03-03` (exclusive). -/
def evDaily : Event :=
  ⟨.dateOnly (daysFromCivil 2024 3 1), .dateOnly (daysFromCivil 2024 3 3), some "Title"⟩

/-- A degenerate all-day event whose `DTSTART` and `DTEND` name the same
date, so the exclusive-end expansion lands one second before the start
and the clamp fires. -/
def evSameDate : Event :=
  ⟨.dateOnly (daysFromCivil 2024 3 3), .dateOnly (daysFromCivil 2024 3 3), some "X"⟩

/-- A timed single-day event: 2024-03-01 from 14:30 to 15:45 local. -/
def evTimed : Event :=
  ⟨.dateTime (daysFromCivil 2024 3 1 * 86400 + 14 * 3600 + 30 * 60),
   .dateTime (daysFromCivil 2024 3 1 * 86400 + 15 * 3600 + 45 * 60), some "Meeting"⟩

/-- A timed event whose datetimes fall exactly at local midnight. -/
def evMidnight : Event :=
  ⟨.dateTime (daysFromCivil 2024 3 1 * 86400), .dateTime (daysFromCivil 2024 3 2 * 86400),
   some "M"⟩

/-- An event whose raw end (date-only 2024-03-03, exclusive) precedes
its timed start (2024-03-03 10:00). -/
def evClamped : Event :=
  ⟨.dateTime (daysFromCivil 2024 3 3 * 86400 + 10 * 3600),
   .dateOnly (daysFromCivil 2024 3 3), some "X"⟩

/-- An all-day event with a whitespace-only summary. -/
def evBlankTitle : Event :=
  ⟨.dateOnly (daysFromCivil 2024 3 1), .dateOnly (daysFromCivil 2024 3 2), some " "⟩

/-- An all-day event with no summary field at all. -/
def evNoTitle : Event :=
  ⟨.dateOnly (daysFromCivil 2024 3 1), .dateOnly (daysFromCivil 2024 3 2), none⟩

/-- A complete contacts config section. -/
def contactsSec : SourceSection :=
  ⟨some "https://carddav.example/c", some "contacts.pal", some "My Contacts", some "CON"⟩

/-- An output file that does not exist yet. -/
def envAbsent : FileEnv := ⟨false, 0, []⟩

/-- A contacts source whose single contact carries a malformed birthday
value, so its conversion raises a `ValueError`. -/
def srcContactsBad : ContactsSource :=
  ⟨contactsSec, some ⟨none, [⟨"Bad Person", [⟨"totally-not-a-date", []⟩]⟩]⟩, envAbsent⟩

/-- A contacts source whose single contact converts cleanly. -/
def srcContactsGood : ContactsSource :=
  ⟨contactsSec, some ⟨none, [⟨"Good Person", [⟨"1990-05-07", []⟩]⟩]⟩, envAbsent⟩

/-- A complete calendars config section. -/
def calendarsSec : SourceSection :=
  ⟨some "https://caldav.example/c", some "cal.pal", some "My Calendar", some "CAL"⟩

/-- A calendar source whose fetched document fails to parse, over an
output file that already has content. -/
def srcCalendarBadDoc : CalendarSource :=
  ⟨calendarsSec, some ⟨none, none⟩, ⟨true, 0, ["OLD 1", "OLD 2"]⟩⟩

/-! ## Theorems about the event converter -/

/-- The end instant is never before the start instant: the clamp of
`_get_end_datetime`. -/
lemma start_le_end (e : Event) : _get_start_datetime e ≤ _get_end_datetime e := by
  simp only [_get_end_datetime]
  split
  · exact le_refl _
  · omega

/-- C2 (amended): for every event whose end is encoded as a date-only
value, the computed end instant equals midnight local time of that
exclusive end date minus one second — provided that instant is not
before the event's start instant (otherwise the clamp of
`_get_end_datetime` replaces it by the start, see the counterexample).
The spec's round-trip example holds: DTSTART=2024-03-01,
DTEND=2024-03-03 renders as `DAILY:20240301:20240302 Title`. -/
theorem c2_end_instant_amended :
    (∀ (e : Event) (d : Int), e.dtend = ICalStamp.dateOnly d →
      _get_start_datetime e ≤ d * 86400 - 1 →
      _get_end_datetime e = d * 86400 - 1) ∧
    _convert_event evDaily = some "DAILY:20240301:20240302 Title\n" := by
  constructor
  · intro e d hend hle
    have hraw : raw_end_datetime e = d * 86400 - 1 := by
      simp [raw_end_datetime, hend]
    simp only [_get_end_datetime, hraw]
    split <;> omega
  · decide

/-- C2 counterexample: the claim as stated fails for an event whose
date-only end does not lie after its start: with DTSTART=DTEND=2024-03-03
the clamp makes the computed end instant midnight of 2024-03-03 itself,
not the last second of 2024-03-02. -/
theorem c2_counterexample :
    evSameDate.dtend = ICalStamp.dateOnly (daysFromCivil 2024 3 3) ∧
    _get_end_datetime evSameDate ≠ daysFromCivil 2024 3 3 * 86400 - 1 :=
  ⟨rfl, by decide⟩

/-- Witness for C2 at the spec's round-trip example: the end instant of
`evDaily` is the last second of 2024-03-02. -/
theorem c2_witness :
    _get_end_datetime evDaily = daysFromCivil 2024 3 3 * 86400 - 1 :=
  c2_end_instant_amended.1 evDaily (daysFromCivil 2024 3 3) rfl (by decide)

/-- C4: the all-day classification holds exactly when both the start and
the end stamps are structurally date-only, and any event with a
date-time stamp — even one whose value falls exactly at midnight — is
classified as timed. -/
theorem c4_all_day_structural (e : Event) :
    (_is_all_day e = true ↔
      ((∃ d, e.dtstart = ICalStamp.dateOnly d) ∧ (∃ d, e.dtend = ICalStamp.dateOnly d))) ∧
    (∀ t, e.dtstart = ICalStamp.dateTime t ∨ e.dtend = ICalStamp.dateTime t →
      _is_all_day e = false) := by
  obtain ⟨s, en, sum⟩ := e
  constructor
  · cases s <;> cases en <;> simp [_is_all_day, ICalStamp.isDateOnly]
  · intro t h
    rcases h with h | h <;> cases h <;> simp [_is_all_day, ICalStamp.isDateOnly]

/-- Witness for C4 at a concrete input: the event whose date-time stamps
fall exactly at local midnight is still timed, not all-day. -/
theorem c4_witness : _is_all_day evMidnight = false :=
  (c4_all_day_structural evMidnight).2 (daysFromCivil 2024 3 1 * 86400) (Or.inl rfl)

/-- C5: the computed end instant is never earlier than the computed
start instant, and when the raw end precedes the start the clamp fires
and the event is rendered as a single-day (non-multi-day) line. -/
theorem c5_end_clamped (e : Event) :
    _get_start_datetime e ≤ _get_end_datetime e ∧
    (raw_end_datetime e < _get_start_datetime e →
      _get_end_datetime e = _get_start_datetime e ∧ _is_multiple_days e = false) := by
  refine ⟨start_le_end e, fun h => ?_⟩
  have he : _get_end_datetime e = _get_start_datetime e := by
    simp only [_get_end_datetime]
    split <;> omega
  refine ⟨he, ?_⟩
  simp [_is_multiple_days, he]

/-- Witness for C5 at a concrete input: `evClamped`'s raw end precedes
its start, its end is clamped to the start and it renders single-day. -/
theorem c5_witness :
    _get_end_datetime evClamped = _get_start_datetime evClamped ∧
    _is_multiple_days evClamped = false :=
  (c5_end_clamped evClamped).2 (by decide)

/-- C6 (amended): an event whose summary field is present but empty or
whitespace-only renders with the literal title `[Event without title]`
in place of the summary; an event whose summary field is absent renders
no line at all — the subscript `event["SUMMARY"]` raises `KeyError` and
the source's conversion aborts. -/
theorem c6_placeholder_title (e : Event) :
    (e.summary = none → _convert_event e = none) ∧
    (∀ s, e.summary = some s → (pyIsspace s = true ∨ s.length = 0) →
      _convert_event e = some (convert_event_titled e "[Event without title]")) := by
  constructor
  · intro h
    simp [_convert_event, h]
  · intro s hs hc
    have ht : event_title s = "[Event without title]" := by
      rcases hc with hc | hc <;> simp [event_title, hc]
    simp [_convert_event, hs, ht]

/-- C6 counterexample: the claim as stated fails for an absent summary:
`evNoTitle` has no summary field, and its conversion yields no rendered
line at all (the `KeyError` aborts the source) — in particular not the
placeholder-titled line the claim promises. -/
theorem c6_counterexample :
    _convert_event evNoTitle = none ∧
    _convert_event evNoTitle ≠ some (convert_event_titled evNoTitle "[Event without title]") :=
  ⟨rfl, by decide⟩

/-- Witness for C6 at a concrete input: the whitespace-only summary of
`evBlankTitle` is replaced by the placeholder title, and the summary-less
`evNoTitle` renders nothing. -/
theorem c6_witness :
    _convert_event evBlankTitle =
      some (convert_event_titled evBlankTitle "[Event without title]") ∧
    _convert_event evNoTitle = none :=
  ⟨(c6_placeholder_title evBlankTitle).2 " " rfl (Or.inl (by decide)),
   (c6_placeholder_title evNoTitle).1 rfl⟩

/-! ## Theorems about the birthday converter -/

/-- No month has more than 31 days. -/
lemma daysInMonth_le (y m : Nat) : daysInMonth y m ≤ 31 := by
  unfold daysInMonth
  split
  · split <;> omega
  · split <;> omega

/-- C7: for every birthday field whose date parses as `YYYY-MM-DD`, the
rendered line is `0000{MM}{DD} {display_name}` (month and day zero
padded to two digits) followed by `, {year} (!{year}!)` exactly when
the year's decimal string does not appear in the field's omit-year
marker list; the spec's two examples render as stated. -/
theorem c7_birthday_line :
    (∀ (fn s : String) (oys : List String) (y m d : Nat),
      parse_bday s = some (y, m, d) →
      (1 ≤ m ∧ m ≤ 12 ∧ 1 ≤ d ∧ d ≤ 31) ∧
      convert_contact_bday fn s oys =
        some ("0000" ++ String.mk (twoDigits m) ++ String.mk (twoDigits d) ++ " " ++ fn ++
          (if toString y ∈ oys then ""
           else ", " ++ toString y ++ " (!" ++ toString y ++ "!)") ++ "\n")) ∧
    convert_contact_bday "Jane Doe" "1990-05-07" [] =
      some "00000507 Jane Doe, 1990 (!1990!)\n" ∧
    convert_contact_bday "Jane Doe" "2000-12-25" ["2000"] =
      some "00001225 Jane Doe\n" := by
  refine ⟨?_, by decide, by decide⟩
  intro fn s oys y m d hparse
  constructor
  · unfold parse_bday at hparse
    split at hparse
    · split at hparse
      · next y' m' d' _ _ _ =>
        split at hparse
        · next hcond =>
          injection hparse with hp
          injection hp with hy hp
          injection hp with hm hd
          subst hy
          subst hm
          subst hd
          have := daysInMonth_le y' m'
          omega
        · exact absurd hparse (by simp)
      · exact absurd hparse (by simp)
    · exact absurd hparse (by simp)
  · unfold convert_contact_bday
    rw [hparse]

/-- Witness for C7 at the spec's first example, applied through the
general statement. -/
theorem c7_witness :
    (1 ≤ 5 ∧ 5 ≤ 12 ∧ 1 ≤ 7 ∧ 7 ≤ 31) ∧
    convert_contact_bday "Jane Doe" "1990-05-07" [] =
      some ("0000" ++ String.mk (twoDigits 5) ++ String.mk (twoDigits 7) ++ " " ++ "Jane Doe" ++
        (if toString 1990 ∈ ([] : List String) then ""
         else ", " ++ toString 1990 ++ " (!" ++ toString 1990 ++ "!)") ++ "\n") :=
  c7_birthday_line.1 "Jane Doe" "1990-05-07" [] 1990 5 7 (by decide)

/-! ## Theorems about the section loops and file writes -/

/-- C8 counterexample: the claim that every per-source failure is
isolated fails on the code: the section loops have no exception
handler, so the `ValueError` raised for `srcContactsBad`'s malformed
birthday date aborts the run and `srcContactsGood` — which converts
cleanly on its own — is never processed.  A two-source run yields one
processed source, not two. -/
theorem c8_counterexample :
    (convert_contacts_to_birthdays [srcContactsBad, srcContactsGood] 0).1.length = 1 ∧
    (convert_contacts_to_birthdays [srcContactsBad, srcContactsGood] 0).1.length ≠ 2 ∧
    (_convert_contacts srcContactsGood 0).1 = ConvOutcome.ok :=
  ⟨by decide, by decide, by decide⟩

/-- C8 (amended): per-source failures detected by the early checks —
missing config keys, failed fetch, up-to-date output file — are
isolated to that source and the loop continues, but a ParseError raised
during conversion propagates out of the loop: a run in which no source
raises processes every source in order. -/
theorem c8_isolation_amended :
    (∀ (sources : List ContactsSource) (now : Int),
      (∀ src ∈ sources, (_convert_contacts src now).1 ≠ ConvOutcome.raised) →
      convert_contacts_to_birthdays sources now =
        (sources.map fun src => _convert_contacts src now, true)) ∧
    (∀ (sources : List CalendarSource) (now : Int),
      (∀ src ∈ sources, (_convert_calendar src now).1 ≠ ConvOutcome.raised) →
      convert_calendars_to_events sources now =
        (sources.map fun src => _convert_calendar src now, true)) := by
  constructor
  · intro sources now h
    induction sources with
    | nil => rfl
    | cons s rest ih =>
      have hs := h s (List.mem_cons_self s rest)
      have hrest := ih fun x hx => h x (List.mem_cons_of_mem s hx)
      simp only [convert_contacts_to_birthdays, if_neg hs, hrest, List.map_cons]
  · intro sources now h
    induction sources with
    | nil => rfl
    | cons s rest ih =>
      have hs := h s (List.mem_cons_self s rest)
      have hrest := ih fun x hx => h x (List.mem_cons_of_mem s hx)
      simp only [convert_calendars_to_events, if_neg hs, hrest, List.map_cons]

/-- Witness for C8: a single-source run with the cleanly-converting
contacts source completes. -/
theorem c8_witness :
    convert_contacts_to_birthdays [srcContactsGood] 0 =
      ([_convert_contacts srcContactsGood 0], true) :=
  c8_isolation_amended.1 [srcContactsGood] 0 (by
    intro x hx
    simp only [List.mem_singleton] at hx
    subst hx
    decide)

/-- C9: conversion is not atomic — once the update check passes, the
output file is truncated and the header written before the document is
parsed.  For calendars, a document that fails to parse leaves the file
holding only the header (the old content is gone).  For contacts, a
birthday field that fails to parse leaves the file holding the header
and the lines written before the failing field. -/
theorem c9_non_atomic_write :
    (∀ (src : CalendarSource) (f : CalendarFetch) (now : Int) (u p nm sh : String),
      src.sec = ⟨some u, some p, some nm, some sh⟩ →
      src.fetch = some f →
      does_file_need_update src.env.fileExists src.env.mtime f.lastModified now
        (some maxAge180) = true →
      f.parsedEvents = none →
      (_convert_calendar src now).2 = [sh ++ " " ++ nm ++ "\n"]) ∧
    (∀ (src : ContactsSource) (f : ContactsFetch) (now : Int) (u p nm sh : String)
        (lines : List String),
      src.sec = ⟨some u, some p, some nm, some sh⟩ →
      src.fetch = some f →
      does_file_need_update src.env.fileExists src.env.mtime f.lastModified now none = true →
      writeContacts f.contacts = (lines, false) →
      (_convert_contacts src now).2 = (sh ++ " " ++ nm ++ "\n") :: lines) := by
  constructor
  · intro src f now u p nm sh hsec hf hupd hev
    obtain ⟨sec, fetch, env⟩ := src
    simp only at hsec hf hupd
    subst hsec
    subst hf
    simp only [_convert_calendar, hupd, Bool.not_true, Bool.false_eq_true, if_false, hev]
  · intro src f now u p nm sh lines hsec hf hupd hw
    obtain ⟨sec, fetch, env⟩ := src
    simp only at hsec hf hupd
    subst hsec
    subst hf
    simp only [_convert_contacts, hupd, Bool.not_true, Bool.false_eq_true, if_false, hw,
      Bool.false_eq_true]

/-- Witness for C9: a calendar source whose document fails to parse,
over an output file that previously held two lines, ends with the file
containing only the header line. -/
theorem c9_witness :
    (_convert_calendar srcCalendarBadDoc 0).2 = ["CAL" ++ " " ++ "My Calendar" ++ "\n"] :=
  c9_non_atomic_write.1 srcCalendarBadDoc ⟨none, none⟩ 0 "https://caldav.example/c" "cal.pal"
    "My Calendar" "CAL" rfl rfl (by decide) rfl

/-! ## Theorems about the rendered time format (C3) -/

/-- The time slice of any instant is its hour and minute digits around a
colon. -/
lemma time_slice_eq (t : Int) :
    time_slice t = String.mk [Nat.digitChar (hourOf t / 10 % 10), Nat.digitChar (hourOf t % 10),
      ':', Nat.digitChar (minuteOf t / 10 % 10), Nat.digitChar (minuteOf t % 10)] := rfl

/-- Below 10, `Nat.digitChar` yields a decimal digit character. -/
lemma digitChar_isDigit_of_lt {n : Nat} (h : n < 10) : (Nat.digitChar n).isDigit = true := by
  have hall : ∀ m, m < 10 → (Nat.digitChar m).isDigit = true := by decide
  exact hall n h

/-- On digits, `Nat.digitChar` is strictly monotone. -/
lemma digitChar_lt_of_lt {a b : Nat} (ha : a < 10) (hb : b < 10) (h : a < b) :
    Nat.digitChar a < Nat.digitChar b := by
  have hall : ∀ x, x < 10 → ∀ y, y < 10 → x < y → Nat.digitChar x < Nat.digitChar y := by decide
  exact hall a ha b hb h

/-- A digit-colon-digit string of four digits is a clock string. -/
lemma isClockString_of_digits (a b c d : Nat) (ha : a < 10) (hb : b < 10) (hc : c < 10)
    (hd : d < 10) :
    isClockString (String.mk [Nat.digitChar a, Nat.digitChar b, ':',
      Nat.digitChar c, Nat.digitChar d]) = true := by
  show ((Nat.digitChar a).isDigit && (Nat.digitChar b).isDigit && (':' == ':') &&
    (Nat.digitChar c).isDigit && (Nat.digitChar d).isDigit) = true
  rw [digitChar_isDigit_of_lt ha, digitChar_isDigit_of_lt hb, digitChar_isDigit_of_lt hc,
    digitChar_isDigit_of_lt hd]
  rfl

/-- Every rendered time slice is a zero-padded `HH:MM` clock string. -/
lemma isClockString_time_slice (t : Int) : isClockString (time_slice t) = true := by
  rw [time_slice_eq]
  exact isClockString_of_digits _ _ _ _ (Nat.mod_lt _ (by norm_num)) (Nat.mod_lt _ (by norm_num))
    (Nat.mod_lt _ (by norm_num)) (Nat.mod_lt _ (by norm_num))

/-- Lexicographic comparison of two `HH:MM` strings follows the
hour-then-minute comparison of their values. -/
lemma clock_string_le {h1 m1 h2 m2 : Nat} (hb1 : h1 < 100) (hb2 : h2 < 100)
    (hc1 : m1 < 100) (hc2 : m2 < 100)
    (hlt : h1 < h2 ∨ (h1 = h2 ∧ m1 ≤ m2)) :
    (String.mk [Nat.digitChar (h1 / 10 % 10), Nat.digitChar (h1 % 10), ':',
      Nat.digitChar (m1 / 10 % 10), Nat.digitChar (m1 % 10)] : String) ≤
    String.mk [Nat.digitChar (h2 / 10 % 10), Nat.digitChar (h2 % 10), ':',
      Nat.digitChar (m2 / 10 % 10), Nat.digitChar (m2 % 10)] := by
  rcases hlt with hlt | ⟨heq, hle⟩
  · apply le_of_lt
    rw [String.lt_iff_toList_lt]
    show ([Nat.digitChar (h1 / 10 % 10), Nat.digitChar (h1 % 10), ':',
      Nat.digitChar (m1 / 10 % 10), Nat.digitChar (m1 % 10)] : List Char) <
      [Nat.digitChar (h2 / 10 % 10), Nat.digitChar (h2 % 10), ':',
        Nat.digitChar (m2 / 10 % 10), Nat.digitChar (m2 % 10)]
    rcases (show h1 / 10 % 10 < h2 / 10 % 10 ∨
        (h1 / 10 % 10 = h2 / 10 % 10 ∧ h1 % 10 < h2 % 10) by omega) with hd | ⟨hd1, hd2⟩
    · exact List.Lex.rel (digitChar_lt_of_lt (by omega) (by omega) hd)
    · rw [hd1]
      exact List.Lex.cons (List.Lex.rel (digitChar_lt_of_lt (by omega) (by omega) hd2))
  · subst heq
    rcases Nat.lt_or_ge m1 m2 with hm | hm
    · apply le_of_lt
      rw [String.lt_iff_toList_lt]
      show ([Nat.digitChar (h1 / 10 % 10), Nat.digitChar (h1 % 10), ':',
        Nat.digitChar (m1 / 10 % 10), Nat.digitChar (m1 % 10)] : List Char) <
        [Nat.digitChar (h1 / 10 % 10), Nat.digitChar (h1 % 10), ':',
          Nat.digitChar (m2 / 10 % 10), Nat.digitChar (m2 % 10)]
      rcases (show m1 / 10 % 10 < m2 / 10 % 10 ∨
          (m1 / 10 % 10 = m2 / 10 % 10 ∧ m1 % 10 < m2 % 10) by omega) with hd | ⟨hd1, hd2⟩
      · exact List.Lex.cons (List.Lex.cons (List.Lex.cons
          (List.Lex.rel (digitChar_lt_of_lt (by omega) (by omega) hd))))
      · rw [hd1]
        exact List.Lex.cons (List.Lex.cons (List.Lex.cons (List.Lex.cons
          (List.Lex.rel (digitChar_lt_of_lt (by omega) (by omega) hd2)))))
    · have hmm : m1 = m2 := by omega
      subst hmm
      exact le_refl _

/-- The second of the day is below 86400. -/
lemma sodOf_lt (t : Int) : sodOf t < 86400 := by
  unfold sodOf
  have h1 : 0 ≤ Int.emod t 86400 := Int.emod_nonneg t (by norm_num)
  have h2 : Int.emod t 86400 < 86400 := Int.emod_lt_of_pos t (by norm_num)
  omega

/-- Instants of the same local day render in time order. -/
lemma time_slice_le {s t : Int} (hst : s ≤ t) (hday : localDay s = localDay t) :
    time_slice s ≤ time_slice t := by
  have hsod : sodOf s ≤ sodOf t := by
    unfold localDay at hday
    unfold sodOf
    have hs1 : 86400 * Int.ediv s 86400 + Int.emod s 86400 = s := Int.ediv_add_emod s 86400
    have ht1 : 86400 * Int.ediv t 86400 + Int.emod t 86400 = t := Int.ediv_add_emod t 86400
    have hs2 : 0 ≤ Int.emod s 86400 := Int.emod_nonneg s (by norm_num)
    have ht2 : 0 ≤ Int.emod t 86400 := Int.emod_nonneg t (by norm_num)
    omega
  have h1 := sodOf_lt s
  have h2 := sodOf_lt t
  rw [time_slice_eq, time_slice_eq]
  apply clock_string_le
  · unfold hourOf
    omega
  · unfold hourOf
    omega
  · unfold minuteOf
    omega
  · unfold minuteOf
    omega
  · unfold hourOf minuteOf
    omega

/-- C3 (amended): for every timed (non-all-day) event, the rendered
start and end times are exactly five characters `HH:MM` — zero-padded
two-digit hour, a colon, zero-padded two-digit minute — and a timed
single-day event's line contains `[HH:MM-HH:MM]` with the start time
lexically less than or equal to the end time. -/
theorem c3_time_format_amended (e : Event) (hall : _is_all_day e = false) :
    (isClockString (time_slice (_get_start_datetime e)) = true ∧
     isClockString (time_slice (_get_end_datetime e)) = true) ∧
    (_is_multiple_days e = false →
      _convert_event e =
        e.summary.map (fun s =>
          date_slice (_get_start_datetime e) ++ " [" ++ time_slice (_get_start_datetime e) ++
            "-" ++ time_slice (_get_end_datetime e) ++ "] " ++ event_title s ++ "\n") ∧
      time_slice (_get_start_datetime e) ≤ time_slice (_get_end_datetime e)) := by
  refine ⟨⟨isClockString_time_slice _, isClockString_time_slice _⟩, fun hmd => ⟨?_, ?_⟩⟩
  · cases hsum : e.summary with
    | none => simp [_convert_event, hsum]
    | some s =>
      simp only [_convert_event, hsum, Option.map_some']
      simp only [convert_event_titled, hall, hmd, Bool.false_eq_true, if_false]
  · apply time_slice_le (start_le_end e)
    simp only [_is_multiple_days, bne_eq_false_iff_eq] at hmd
    exact hmd

/-- C3 counterexample: the claim as stated — time strings are exactly
four digits `HHMM` — fails on the code: the slice `[9:14]` of
`"YYYYMMDD HH:MM:SS"` keeps the colon, so the timed event 14:30-15:45
renders as `[14:30-15:45]`: five characters including a colon, not four
digits. -/
theorem c3_counterexample :
    _convert_event evTimed = some "20240301 [14:30-15:45] Meeting\n" ∧
    _is_all_day evTimed = false ∧
    time_slice (_get_start_datetime evTimed) = "14:30" ∧
    (time_slice (_get_start_datetime evTimed)).length ≠ 4 ∧
    (time_slice (_get_start_datetime evTimed)).toList.all Char.isDigit = false :=
  ⟨by decide, by decide, by decide, by decide, by decide⟩

/-- Witness for C3 at a concrete input: the timed event's time slices
are clock strings and its start time sorts before its end time. -/
theorem c3_witness :
    isClockString (time_slice (_get_start_datetime evTimed)) = true ∧
    time_slice (_get_start_datetime evTimed) ≤ time_slice (_get_end_datetime evTimed) :=
  ⟨(c3_time_format_amended evTimed (by decide)).1.1,
   ((c3_time_format_amended evTimed (by decide)).2 (by decide)).2⟩

end Caldav2pal
